import Mathlib

/-!
Verification of the terraform-mcp-server core (transport, session, CORS,
rate-limit, dynamic tool dispatch) against its natural-language
specification.  Every definition below is a shallow embedding of a Go
function of the repository; the file references the source locations of
each embedded function.  External effects (HTTP transport, upstream
registry, environment) are modelled as explicit function parameters.
-/

/- ## Constants (pkg/client/tfe_client.go) -/

def TerraformAddress : String := "TFE_ADDRESS"

def TerraformToken : String := "TFE_TOKEN"

def TerraformSkipTLSVerify : String := "TFE_SKIP_TLS_VERIFY"

def DefaultTerraformAddress : String := "https://app.terraform.io"

/- ## Origin gate (pkg/client/middleware.go, isOriginAllowed / securityHandler.ServeHTTP)

An HTTP request is modelled by the two pieces of data the security handler
inspects: the value of the Origin header (the empty string models an absent
header, matching Go Header.Get) and the request method.  The response is
modelled by the explicit status the handler writes (none when the wrapped
handler is left to respond), the Access-Control headers the handler sets,
and whether the wrapped handler was invoked. -/

def isOriginAllowed (origin : String) (allowedOrigins : List String) (mode : String) : Bool :=
  if mode == "disabled" then
    true
  else if allowedOrigins.any (fun allowed => origin == allowed) then
    true
  else if mode == "development" &&
      (origin.startsWith "http://localhost:" ||
       origin.startsWith "https://localhost:" ||
       origin.startsWith "http://127.0.0.1:" ||
       origin.startsWith "https://127.0.0.1:" ||
       origin.startsWith "http://[::1]:" ||
       origin.startsWith "https://[::1]:") then
    true
  else
    false

structure SecurityRequest where
  origin : String
  method : String
deriving DecidableEq

structure SecurityResponse where
  status : Option Nat
  headers : List (String × String)
  handlerInvoked : Bool
deriving DecidableEq

def securityServeHTTP (allowedOrigins : List String) (corsMode : String)
    (r : SecurityRequest) : SecurityResponse :=
  if r.origin != "" then
    if !isOriginAllowed r.origin allowedOrigins corsMode then
      { status := some 403, headers := [], handlerInvoked := false }
    else
      let corsHeaders : List (String × String) :=
        [("Access-Control-Max-Age", "3600"),
         ("Access-Control-Allow-Origin", r.origin),
         ("Access-Control-Allow-Methods", "GET, POST, OPTIONS"),
         ("Access-Control-Allow-Headers", "Content-Type, Mcp-Session-Id")]
      if r.method == "OPTIONS" then
        { status := some 200, headers := corsHeaders, handlerInvoked := false }
      else
        { status := none, headers := corsHeaders, handlerInvoked := true }
  else
    if r.method == "OPTIONS" then
      { status := some 200, headers := [], handlerInvoked := false }
    else
      { status := none, headers := [], handlerInvoked := true }

/- ## Context enrichment (pkg/client/middleware.go, TerraformContextMiddleware)

Headers, query parameters and the environment are modelled as lookup
functions from key to value, the empty string modelling an absent entry
(matching Go Header.Get / Values.Get / GetEnv with empty fallback).  The
middleware either halts the request with 400 Bad Request or proceeds to
the downstream handler with the three resolved context values. -/

inductive MiddlewareResult where
  | badRequest (message : String)
  | proceed (ctxAddress ctxToken ctxSkipTLS : String)
deriving DecidableEq

def MiddlewareResult.isBadRequest : MiddlewareResult → Bool
  | MiddlewareResult.badRequest _ => true
  | MiddlewareResult.proceed _ _ _ => false

def resolveContextValue (header : String) (headers query env : String → String) :
    Except String String :=
  let headerValue := headers header
  if headerValue == "" then
    let headerValue := query header
    if header == TerraformToken && headerValue != "" then
      Except.error "Terraform token should not be provided in query parameters for security reasons, use the terraform_token header"
    else if headerValue == "" then
      Except.ok (env header)
    else
      Except.ok headerValue
  else
    Except.ok headerValue

def TerraformContextMiddleware (headers query env : String → String) : MiddlewareResult :=
  match resolveContextValue TerraformAddress headers query env with
  | Except.error message => MiddlewareResult.badRequest message
  | Except.ok ctxAddress =>
    match resolveContextValue TerraformToken headers query env with
    | Except.error message => MiddlewareResult.badRequest message
    | Except.ok ctxToken =>
      match resolveContextValue TerraformSkipTLSVerify headers query env with
      | Except.error message => MiddlewareResult.badRequest message
      | Except.ok ctxSkipTLS => MiddlewareResult.proceed ctxAddress ctxToken ctxSkipTLS

def c2Headers : String → String :=
  fun key => if key == TerraformToken then "header-token-value" else ""

def c2Query : String → String :=
  fun key => if key == TerraformToken then "secret" else ""

def c2Env : String → String := fun _ => ""

/- ## Rate limiter (pkg/client/ratelimit.go)

A token bucket is abstracted by the number of tokens it has available at
the instant of the call: rate.Limiter.Allow consumes one token and
returns true when a token is available, and returns false without
consuming anything otherwise.  The per-session limiter map is modelled as
an association list; getSessionLimiter performs the lazy
create-with-configured-burst of the Go code. -/

structure RateLimitConfig where
  globalLimit : Nat
  globalBurst : Nat
  perSessionLimit : Nat
  perSessionBurst : Nat
deriving DecidableEq

structure RateLimitState where
  globalTokens : Nat
  sessionLimiters : List (String × Nat)
deriving DecidableEq

def lookupLimiter : List (String × Nat) → String → Option Nat
  | [], _ => none
  | (key, tokens) :: rest, sessionID =>
    if key == sessionID then some tokens else lookupLimiter rest sessionID

def setLimiter : List (String × Nat) → String → Nat → List (String × Nat)
  | [], sessionID, tokens => [(sessionID, tokens)]
  | (key, old) :: rest, sessionID, tokens =>
    if key == sessionID then (sessionID, tokens) :: rest
    else (key, old) :: setLimiter rest sessionID tokens

def getSessionLimiter (config : RateLimitConfig) (limiters : List (String × Nat))
    (sessionID : String) : Nat × List (String × Nat) :=
  match lookupLimiter limiters sessionID with
  | some tokens => (tokens, limiters)
  | none => (config.perSessionBurst, setLimiter limiters sessionID config.perSessionBurst)

inductive RateLimitOutcome where
  | rateLimitError (message : String)
  | handlerRun
deriving DecidableEq

def rateLimitMiddleware (config : RateLimitConfig) (st : RateLimitState)
    (sessionID : String) : RateLimitOutcome × RateLimitState :=
  if st.globalTokens == 0 then
    (RateLimitOutcome.rateLimitError "rate limit exceeded: too many requests globally", st)
  else
    let st1 : RateLimitState := { st with globalTokens := st.globalTokens - 1 }
    if sessionID != "" then
      let consulted := getSessionLimiter config st1.sessionLimiters sessionID
      if consulted.1 == 0 then
        (RateLimitOutcome.rateLimitError "rate limit exceeded: too many requests from this session",
         { st1 with sessionLimiters := consulted.2 })
      else
        (RateLimitOutcome.handlerRun,
         { st1 with sessionLimiters := setLimiter consulted.2 sessionID (consulted.1 - 1) })
    else
      (RateLimitOutcome.handlerRun, st1)

/- ## Transport mode selection (cmd/terraform-mcp-server/init.go, shouldUseStreamableHTTPMode)

The process environment is modelled as a lookup function; os.Getenv of an
unset variable is the empty string. -/

def shouldUseStreamableHTTPMode (env : String → String) : Bool :=
  let transportMode := env "TRANSPORT_MODE"
  transportMode == "http" || transportMode == "streamable-http" ||
    env "TRANSPORT_PORT" != "" ||
    env "TRANSPORT_HOST" != "" ||
    env "MCP_ENDPOINT" != ""

def stdioOnlyEnv : String → String :=
  fun key => if key == "TRANSPORT_MODE" then "stdio" else ""

def portOnlyEnv : String → String :=
  fun key => if key == "TRANSPORT_PORT" then "9090" else ""

/- ## Dynamic tool registry (pkg/tools/dynamic_tool.go)

The DynamicToolRegistry state: the set of sessions known to have a TFE
client (a Go map from session ID to bool, modelled as a duplicate-free
list of keys), the tfeToolsRegistered flag, and the list of tool names
added to the MCP server so far (each AddTool call appends its tool). -/

structure DynRegistryState where
  sessionsWithTFE : List String
  tfeToolsRegistered : Bool
  serverTools : List String
deriving DecidableEq

def initialDynRegistryState : DynRegistryState :=
  { sessionsWithTFE := [], tfeToolsRegistered := false, serverTools := [] }

def HasSessionWithTFE (st : DynRegistryState) (sessionID : String) : Bool :=
  st.sessionsWithTFE.contains sessionID

def tfeToolNames : List String :=
  ["list_terraform_orgs", "list_terraform_projects", "list_workspaces",
   "get_workspace_details", "create_workspace", "update_workspace",
   "delete_workspace_safely", "search_private_providers",
   "get_private_provider_details", "search_private_modules",
   "get_private_module_details", "list_runs", "create_run", "action_run",
   "get_run_details"]

def registerTFETools (st : DynRegistryState) : DynRegistryState :=
  if st.tfeToolsRegistered then st
  else { st with serverTools := st.serverTools ++ tfeToolNames, tfeToolsRegistered := true }

def insertSession (sessionID : String) (sessions : List String) : List String :=
  if sessions.contains sessionID then sessions else sessions ++ [sessionID]

def RegisterSessionWithTFE (sessionID : String) (st : DynRegistryState) : DynRegistryState :=
  let st1 := { st with sessionsWithTFE := insertSession sessionID st.sessionsWithTFE }
  if !st1.tfeToolsRegistered then registerTFETools st1 else st1

def UnregisterSessionWithTFE (sessionID : String) (st : DynRegistryState) : DynRegistryState :=
  { st with sessionsWithTFE := st.sessionsWithTFE.filter (fun s => !(s == sessionID)) }

inductive SessionOp where
  | registerTFE (sessionID : String)
  | unregisterTFE (sessionID : String)
deriving DecidableEq

def SessionOp.isRegister : SessionOp → Bool
  | SessionOp.registerTFE _ => true
  | SessionOp.unregisterTFE _ => false

def applySessionOp (st : DynRegistryState) : SessionOp → DynRegistryState
  | SessionOp.registerTFE sessionID => RegisterSessionWithTFE sessionID st
  | SessionOp.unregisterTFE sessionID => UnregisterSessionWithTFE sessionID st

def applySessionOps (st : DynRegistryState) (ops : List SessionOp) : DynRegistryState :=
  ops.foldl applySessionOp st

/- ## Credentialed tool wrapper (pkg/tools/dynamic_tool.go, createDynamicTFETool)

The wrapped handler of a credentialed (TFE) tool.  The request context is
modelled by the optional session ID it carries; the activeTfeClients map
(pkg/client/tfe_client.go) is modelled by a predicate saying which session
IDs have a TFE client, so that GetTfeClient returning nil corresponds to
tfeClients sessionID = false.  The outcome distinguishes a diagnostic
error result from the original tool handler being run. -/

inductive ToolOutcome where
  | errorResult (message : String)
  | runOriginal
deriving DecidableEq

def createDynamicTFEToolHandler (st : DynRegistryState) (tfeClients : String → Bool)
    (session : Option String) : ToolOutcome × DynRegistryState :=
  match session with
  | none =>
    (ToolOutcome.errorResult "This tool requires an active session with valid Terraform Cloud/Enterprise configuration.", st)
  | some sessionID =>
    if !HasSessionWithTFE st sessionID then
      if !tfeClients sessionID then
        (ToolOutcome.errorResult "This tool is not available. This tool requires a valid Terraform Cloud/Enterprise token and configuration. Please ensure TFE_TOKEN and TFE_ADDRESS environment variables are properly set.", st)
      else
        (ToolOutcome.runOriginal, RegisterSessionWithTFE sessionID st)
    else
      (ToolOutcome.runOriginal, st)

/- ## Provider URI parsing (pkg/utils, ExtractProviderNameAndVersion /
IsValidProviderVersionFormat)

strings.Split on "/" is implemented structurally on the character list so
that proofs can evaluate it.  IsValidProviderVersionFormat decides the Go
regular expression `^v?(\d+\.\d+\.\d+(-[a-zA-Z0-9]+)?)$` (RE2, ASCII
digit and letter classes, anchors at the very start and end of the
text). -/

def splitOnSlashAux : List Char → List Char → List (List Char)
  | [], acc => [acc.reverse]
  | c :: rest, acc =>
    if c == '/' then acc.reverse :: splitOnSlashAux rest []
    else splitOnSlashAux rest (c :: acc)

def splitOnSlash (s : String) : List String :=
  (splitOnSlashAux s.toList []).map (fun cs => String.mk cs)

def ExtractProviderNameAndVersion (uri : String) :
    Except String (String × String × String) :=
  let parts := splitOnSlash uri
  if parts.length < 5 then
    Except.error "invalid provider URI format"
  else
    Except.ok (parts.getD (parts.length - 5) "",
               parts.getD (parts.length - 3) "",
               parts.getD (parts.length - 1) "")

def dropLeadingDigits : List Char → List Char
  | [] => []
  | c :: rest => if c.isDigit then dropLeadingDigits rest else c :: rest

def parseDigits1 : List Char → Option (List Char)
  | [] => none
  | c :: rest => if c.isDigit then some (dropLeadingDigits rest) else none

def matchPreRelease : List Char → Bool
  | [] => true
  | '-' :: rest => !rest.isEmpty && rest.all Char.isAlphanum
  | _ => false

def matchDottedTriple (cs : List Char) : Bool :=
  match parseDigits1 cs with
  | none => false
  | some cs1 =>
    match cs1 with
    | '.' :: cs2 =>
      match parseDigits1 cs2 with
      | none => false
      | some cs3 =>
        match cs3 with
        | '.' :: cs4 =>
          match parseDigits1 cs4 with
          | none => false
          | some cs5 => matchPreRelease cs5
        | _ => false
    | _ => false

def IsValidProviderVersionFormat (version : String) : Bool :=
  match version.toList with
  | 'v' :: rest => matchDottedTriple rest
  | cs => matchDottedTriple cs

/- ## Provider resource template reader
(pkg/resources/resources.go and pkg/client/common.go)

Upstream registry interactions of the reader are abstracted into an
oracle: GetLatestProviderVersion and GetProviderVersionID keep their Go
signatures; GetProviderOverviewDocs is split into its two registry
accesses (the overview page listing for a provider-version ID, and
GetProviderResourceDocs for one documentation page) so that the physical
source documents of a read stay visible.  Error strings accumulate the
wrapping performed by utils.LogAndReturnError (`context, err`). -/

structure RegistryOracle where
  getLatestProviderVersion : String → String → Except String String
  getProviderVersionID : String → String → String → Except String String
  overviewDocPages : String → Except String (List String)
  getProviderResourceDocs : String → Except String String

def concatResourceDocs (oracle : RegistryOracle) : List String → Except String String
  | [] => Except.ok ""
  | pageID :: rest =>
    match oracle.getProviderResourceDocs pageID with
    | Except.error e => Except.error ("getting provider resource docs looping, " ++ e)
    | Except.ok content =>
      match concatResourceDocs oracle rest with
      | Except.error e => Except.error e
      | Except.ok restContent => Except.ok (content ++ restContent)

def GetProviderOverviewDocs (oracle : RegistryOracle) (providerVersionID : String) :
    Except String String :=
  match oracle.overviewDocPages providerVersionID with
  | Except.error e => Except.error ("getting provider docs overview, " ++ e)
  | Except.ok pageIDs => concatResourceDocs oracle pageIDs

def fetchDocsForVersion (oracle : RegistryOracle) (ns name version : String) :
    Except String String :=
  match oracle.getProviderVersionID ns name version with
  | Except.error e => Except.error ("getting provider details for provider-version-id, " ++ e)
  | Except.ok providerVersionID =>
    match GetProviderOverviewDocs oracle providerVersionID with
    | Except.error e => Except.error ("getting provider details for docs with provider-version-id, " ++ e)
    | Except.ok providerDocs => Except.ok providerDocs

def providerResourceTemplateHelper (oracle : RegistryOracle) (resourceURI : String) :
    Except String String :=
  match ExtractProviderNameAndVersion resourceURI with
  | Except.error e => Except.error ("extracting provider name and version, " ++ e)
  | Except.ok (ns, name, version) =>
    let resolved :=
      if version == "" || version == "latest" || !IsValidProviderVersionFormat version then
        match oracle.getLatestProviderVersion ns name with
        | Except.error e =>
          Except.error ("getting " ++ ns ++ "/" ++ name ++ " latest provider version for resource template, " ++ e)
        | Except.ok latest => Except.ok latest
      else
        Except.ok version
    match resolved with
    | Except.error e => Except.error e
    | Except.ok version1 =>
      match oracle.getProviderVersionID ns name version1 with
      | Except.error e => Except.error ("getting provider details for provider-version-id, " ++ e)
      | Except.ok providerVersionID =>
        match GetProviderOverviewDocs oracle providerVersionID with
        | Except.error e => Except.error ("getting provider details for docs with provider-version-id, " ++ e)
        | Except.ok providerDocs => Except.ok providerDocs

structure TextResourceContents where
  mimeType : String
  uri : String
  text : String
deriving DecidableEq

def providerResourceTemplateRead (oracle : RegistryOracle) (resourceURI : String)
    (requestURI : String) : Except String (List TextResourceContents) :=
  match providerResourceTemplateHelper oracle requestURI with
  | Except.error e => Except.error ("getting provider details for resource template, " ++ e)
  | Except.ok providerDocs =>
    Except.ok [{ mimeType := "text/markdown", uri := resourceURI, text := providerDocs }]

def c7Oracle : RegistryOracle :=
  { getLatestProviderVersion := fun _ _ => Except.ok "9.9.9",
    getProviderVersionID := fun _ _ version => Except.ok ("ID-" ++ version),
    overviewDocPages := fun providerVersionID => Except.ok [providerVersionID],
    getProviderResourceDocs := fun pageID => Except.ok ("DOC:" ++ pageID) }

def c7Uri : String := "registry://providers/hashicorp/name/aws/version/latest"

def c8Oracle : RegistryOracle :=
  { getLatestProviderVersion := fun _ _ => Except.ok "1.0.0",
    getProviderVersionID := fun _ _ _ => Except.ok "VID",
    overviewDocPages := fun _ => Except.ok ["d1", "d2"],
    getProviderResourceDocs := fun pageID => if pageID == "d1" then Except.ok "A" else Except.ok "B" }

def c8TemplateURI : String := "registry://providers/\x7bnamespace\x7d/name/\x7bname\x7d/version/\x7bversion\x7d"

def c8RequestURI : String := "registry://providers/hashicorp/name/aws/version/1.0.0"

/- ## Registry transport (pkg/client/registry.go, SendRegistryCall)

The HTTP round trip client.Do is abstracted as a function from method and
URL to either a transport error or a response; reading the body of a
received response is part of the response datum.  URL construction
follows the format %s/%s/%s over DefaultPublicRegistryURL, ver and uri; on
such strings url.Parse never fails. -/

def DefaultPublicRegistryURL : String := "https://registry.terraform.io"

structure RegistryResponse where
  statusCode : Nat
  body : String
deriving DecidableEq

def buildRegistryURL (callOptions : List String) (uri : String) : String :=
  let ver :=
    match callOptions with
    | v :: _ => v
    | [] => "v1"
  DefaultPublicRegistryURL ++ "/" ++ ver ++ "/" ++ uri

def SendRegistryCall (doRequest : String → String → Except String RegistryResponse)
    (method : String) (uri : String) (callOptions : List String) :
    Except String String :=
  match doRequest method (buildRegistryURL callOptions uri) with
  | Except.error e => Except.error e
  | Except.ok resp =>
    if resp.statusCode != 200 then
      Except.error ("error: " ++ "404 Not Found")
    else
      Except.ok resp.body

def c10Transport : String → String → Except String RegistryResponse :=
  fun _ _ => Except.ok { statusCode := 500, body := "internal server error" }

/-- Claim C9: for every CORS mode string other than "disabled" and "development"
(including unrecognized values such as "foo"), the origin-admission decision is
the same as strict mode: an origin is admitted if and only if it is an exact
string match against the configured allowed-origins list, with no localhost
bypass and no allow-all bypass. -/
theorem corsUnknownModeStrict (origin : String) (allowedOrigins : List String) (mode : String)
    (h1 : mode ≠ "disabled") (h2 : mode ≠ "development") :
    isOriginAllowed origin allowedOrigins mode
      = allowedOrigins.any (fun allowed => origin == allowed)
    ∧ isOriginAllowed origin allowedOrigins mode
      = isOriginAllowed origin allowedOrigins "strict" := by
  have hd : (mode == "disabled") = false := beq_eq_false_iff_ne.mpr h1
  have hv : (mode == "development") = false := beq_eq_false_iff_ne.mpr h2
  constructor
  · simp only [isOriginAllowed, hd, hv, Bool.false_and, if_false]
    cases hA : allowedOrigins.any (fun allowed => origin == allowed) <;> simp [hA]
  · have e1 : (("strict" : String) == "disabled") = false := by decide
    have e2 : (("strict" : String) == "development") = false := by decide
    simp only [isOriginAllowed, hd, hv, e1, e2, Bool.false_and, if_false]

/-- Witness for the C9 theorem at the unrecognized mode foo. -/
theorem corsUnknownModeStrict_witness :
    isOriginAllowed "https://example.com" ["https://example.com"] "foo"
      = ["https://example.com"].any (fun allowed => "https://example.com" == allowed)
    ∧ isOriginAllowed "https://example.com" ["https://example.com"] "foo"
      = isOriginAllowed "https://example.com" ["https://example.com"] "strict" :=
  corsUnknownModeStrict "https://example.com" ["https://example.com"] "foo"
    (by decide) (by decide)

/-- Claim C3 (amended): on the MCP endpoint, a request with no Origin header and
a method other than OPTIONS passes to the wrapped handler; an OPTIONS request
with no Origin header is answered 200 directly without invoking the wrapped
handler; a present but disallowed Origin gets 403 with no Access-Control
headers and no downstream invocation; an allowed Origin gets the four
Access-Control response headers (echoed origin, GET, POST, OPTIONS methods,
Content-Type and Mcp-Session-Id headers, max-age 3600), an allowed OPTIONS
request being answered 200 with those headers without invoking the handler. -/
theorem originGate_dispatch (allowedOrigins : List String) (corsMode : String)
    (r : SecurityRequest) :
    (r.origin = "" → r.method ≠ "OPTIONS" →
      securityServeHTTP allowedOrigins corsMode r
        = { status := none, headers := [], handlerInvoked := true })
    ∧ (r.origin = "" → r.method = "OPTIONS" →
      securityServeHTTP allowedOrigins corsMode r
        = { status := some 200, headers := [], handlerInvoked := false })
    ∧ (r.origin ≠ "" → isOriginAllowed r.origin allowedOrigins corsMode = false →
      securityServeHTTP allowedOrigins corsMode r
        = { status := some 403, headers := [], handlerInvoked := false })
    ∧ (r.origin ≠ "" → isOriginAllowed r.origin allowedOrigins corsMode = true →
      (securityServeHTTP allowedOrigins corsMode r).headers
        = [("Access-Control-Max-Age", "3600"),
           ("Access-Control-Allow-Origin", r.origin),
           ("Access-Control-Allow-Methods", "GET, POST, OPTIONS"),
           ("Access-Control-Allow-Headers", "Content-Type, Mcp-Session-Id")]
      ∧ (r.method = "OPTIONS" →
          securityServeHTTP allowedOrigins corsMode r
            = { status := some 200,
                headers := [("Access-Control-Max-Age", "3600"),
                            ("Access-Control-Allow-Origin", r.origin),
                            ("Access-Control-Allow-Methods", "GET, POST, OPTIONS"),
                            ("Access-Control-Allow-Headers", "Content-Type, Mcp-Session-Id")],
                handlerInvoked := false })) := by
  refine ⟨?_, ?_, ?_, ?_⟩
  · intro ho hm
    have hm2 : (r.method == "OPTIONS") = false := beq_eq_false_iff_ne.mpr hm
    simp [securityServeHTTP, ho, hm2]
  · intro ho hm
    simp [securityServeHTTP, ho, hm]
  · intro ho hall
    have ho2 : (r.origin != "") = true := bne_iff_ne.mpr ho
    simp [securityServeHTTP, ho2, hall]
  · intro ho hall
    have ho2 : (r.origin != "") = true := bne_iff_ne.mpr ho
    constructor
    · cases hm : r.method == "OPTIONS" <;> simp [securityServeHTTP, ho2, hall, hm]
    · intro hm
      simp [securityServeHTTP, ho2, hall, hm]

/-- Claim C3 counterexample: an OPTIONS request with no Origin header does not
pass to the wrapped handler; the security handler answers 200 itself. -/
theorem originGate_optionsNoOrigin_counterexample :
    (securityServeHTTP [] "strict" { origin := "", method := "OPTIONS" }).handlerInvoked = false
    ∧ securityServeHTTP [] "strict" { origin := "", method := "OPTIONS" }
        = { status := some 200, headers := [], handlerInvoked := false } :=
  ⟨rfl, rfl⟩

/-- Witness for the C3 theorem at a concrete disallowed origin. -/
theorem originGate_dispatch_witness :
    securityServeHTTP ["https://example.com"] "strict"
        { origin := "https://evil.com", method := "OPTIONS" }
      = { status := some 403, headers := [], handlerInvoked := false } :=
  (originGate_dispatch ["https://example.com"] "strict"
      { origin := "https://evil.com", method := "OPTIONS" }).2.2.1 (by decide) rfl

/-- Claim C2 (amended): the context-enrichment middleware responds 400 Bad
Request exactly when the request's TFE_TOKEN header is empty (absent) and its
TFE_TOKEN query parameter is non-empty; in particular a request whose token
header is non-empty proceeds downstream regardless of its query parameters. -/
theorem tokenInQuery_condition (headers query env : String → String) :
    (TerraformContextMiddleware headers query env).isBadRequest
      = ((headers TerraformToken == "") && (query TerraformToken != "")) := by
  have hA : (TerraformAddress == TerraformToken) = false := by decide
  have hS : (TerraformSkipTLSVerify == TerraformToken) = false := by decide
  have hT : (TerraformToken == TerraformToken) = true := by decide
  have resA : ∃ v, resolveContextValue TerraformAddress headers query env = Except.ok v := by
    simp only [resolveContextValue, hA, Bool.false_and]
    split
    · split
      · next h => exact absurd h (by decide)
      · split <;> exact ⟨_, rfl⟩
    · exact ⟨_, rfl⟩
  have resS : ∃ v, resolveContextValue TerraformSkipTLSVerify headers query env = Except.ok v := by
    simp only [resolveContextValue, hS, Bool.false_and]
    split
    · split
      · next h => exact absurd h (by decide)
      · split <;> exact ⟨_, rfl⟩
    · exact ⟨_, rfl⟩
  obtain ⟨vA, resA⟩ := resA
  obtain ⟨vS, resS⟩ := resS
  by_cases hH : headers TerraformToken = ""
  · by_cases hQ : query TerraformToken = ""
    · have resT : resolveContextValue TerraformToken headers query env
          = Except.ok (env TerraformToken) := by
        simp [resolveContextValue, hT, hH, hQ]
      simp [TerraformContextMiddleware, resA, resS, resT,
            MiddlewareResult.isBadRequest, hH, hQ]
    · have hQ2 : (query TerraformToken != "") = true := bne_iff_ne.mpr hQ
      have resT : resolveContextValue TerraformToken headers query env
          = Except.error "Terraform token should not be provided in query parameters for security reasons, use the terraform_token header" := by
        simp [resolveContextValue, hT, hH, hQ2]
      simp [TerraformContextMiddleware, resA, resS, resT,
            MiddlewareResult.isBadRequest, hH, hQ2]
  · have hH2 : (headers TerraformToken == "") = false := beq_eq_false_iff_ne.mpr hH
    have resT : resolveContextValue TerraformToken headers query env
        = Except.ok (headers TerraformToken) := by
      simp [resolveContextValue, hH2]
    simp [TerraformContextMiddleware, resA, resS, resT,
          MiddlewareResult.isBadRequest, hH2]

/-- Claim C2 counterexample: a request carrying a non-empty TFE_TOKEN query
parameter together with a non-empty token header is not answered 400; the
middleware proceeds to the downstream handler. -/
theorem tokenInQuery_headerBypass_counterexample :
    c2Query TerraformToken = "secret"
    ∧ TerraformContextMiddleware c2Headers c2Query c2Env
        = MiddlewareResult.proceed "" "header-token-value" ""
    ∧ (TerraformContextMiddleware c2Headers c2Query c2Env).isBadRequest = false :=
  ⟨rfl, rfl, rfl⟩

/-- Claim C5 counterexample: an environment in which TRANSPORT_MODE is present
with value stdio, and no other transport variable is set, does not start the
process in HTTP mode. -/
theorem transportEnvPresence_counterexample :
    stdioOnlyEnv "TRANSPORT_MODE" = "stdio"
    ∧ stdioOnlyEnv "TRANSPORT_MODE" ≠ ""
    ∧ shouldUseStreamableHTTPMode stdioOnlyEnv = false :=
  ⟨rfl, by decide, rfl⟩

/-- Claim C5 (amended): presence (a non-empty value) of TRANSPORT_PORT,
TRANSPORT_HOST or MCP_ENDPOINT forces streamable-HTTP mode regardless of the
value of TRANSPORT_MODE; TRANSPORT_MODE itself selects HTTP mode only through
its value (http or streamable-http), not through its mere presence. -/
theorem transportEnvPresence_forcesHTTP (env : String → String)
    (h : env "TRANSPORT_PORT" ≠ "" ∨ env "TRANSPORT_HOST" ≠ "" ∨ env "MCP_ENDPOINT" ≠ "") :
    shouldUseStreamableHTTPMode env = true := by
  simp only [shouldUseStreamableHTTPMode, Bool.or_eq_true, bne_iff_ne]
  tauto

/-- Witness for the C5 theorem: setting only TRANSPORT_PORT forces HTTP mode. -/
theorem transportEnvPresence_forcesHTTP_witness :
    shouldUseStreamableHTTPMode portOnlyEnv = true :=
  transportEnvPresence_forcesHTTP portOnlyEnv (Or.inl (by decide))

/-- Claim C4: the rate-limit middleware first attempts one token from the
global bucket; on global denial the call is rejected with the global
rate-limit-exceeded error, the handler does not run, and the state (hence
every session bucket) is left unchanged.  Only when the global bucket allows
and the call carries a session ID is the session's bucket consulted (created
on first use with the configured burst); on session denial the call is
rejected with the session rate-limit-exceeded error and the handler does not
run. -/
theorem rateLimit_globalThenSession (config : RateLimitConfig) (st : RateLimitState)
    (sessionID : String) :
    (st.globalTokens = 0 →
      rateLimitMiddleware config st sessionID
        = (RateLimitOutcome.rateLimitError "rate limit exceeded: too many requests globally", st))
    ∧ (st.globalTokens ≠ 0 → sessionID = "" →
      rateLimitMiddleware config st sessionID
        = (RateLimitOutcome.handlerRun, { st with globalTokens := st.globalTokens - 1 }))
    ∧ (st.globalTokens ≠ 0 → sessionID ≠ "" →
        (getSessionLimiter config st.sessionLimiters sessionID).1 = 0 →
      rateLimitMiddleware config st sessionID
        = (RateLimitOutcome.rateLimitError "rate limit exceeded: too many requests from this session",
           { globalTokens := st.globalTokens - 1,
             sessionLimiters := (getSessionLimiter config st.sessionLimiters sessionID).2 }))
    ∧ (lookupLimiter st.sessionLimiters sessionID = none →
        (getSessionLimiter config st.sessionLimiters sessionID).1 = config.perSessionBurst) := by
  refine ⟨?_, ?_, ?_, ?_⟩
  · intro hg
    have hg2 : (st.globalTokens == 0) = true := by simp [hg]
    simp [rateLimitMiddleware, hg2]
  · intro hg hs
    have hg2 : (st.globalTokens == 0) = false := by simp [hg]
    have hs2 : (sessionID != "") = false := by simp [hs]
    simp [rateLimitMiddleware, hg2, hs2]
  · intro hg hs hz
    have hg2 : (st.globalTokens == 0) = false := by simp [hg]
    have hs2 : (sessionID != "") = true := bne_iff_ne.mpr hs
    have hz2 : ((getSessionLimiter config st.sessionLimiters sessionID).1 == 0) = true := by
      simp [hz]
    simp [rateLimitMiddleware, hg2, hs2, hz2]
  · intro hmiss
    simp [getSessionLimiter, hmiss]

/-- Witness for the C4 theorem: an empty global bucket rejects the call and
leaves the session buckets untouched. -/
theorem rateLimit_globalThenSession_witness :
    rateLimitMiddleware
        { globalLimit := 10, globalBurst := 20, perSessionLimit := 5, perSessionBurst := 10 }
        { globalTokens := 0, sessionLimiters := [("s1", 10)] } "s1"
      = (RateLimitOutcome.rateLimitError "rate limit exceeded: too many requests globally",
         { globalTokens := 0, sessionLimiters := [("s1", 10)] }) :=
  (rateLimit_globalThenSession
      { globalLimit := 10, globalBurst := 20, perSessionLimit := 5, perSessionBurst := 10 }
      { globalTokens := 0, sessionLimiters := [("s1", 10)] } "s1").1 rfl

/-- Claim C1: invoking a credentialed (TFE) tool with no session in the request
context, or on a session that is absent from the registry's TFE set and for
which GetTfeClient returns nil, yields a diagnostic error result and never
runs the original tool handler. -/
theorem credentialGate_blocksWithoutClient (st : DynRegistryState)
    (tfeClients : String → Bool) (session : Option String)
    (h : session = none
        ∨ ∃ sessionID, session = some sessionID
            ∧ HasSessionWithTFE st sessionID = false
            ∧ tfeClients sessionID = false) :
    (∃ message, (createDynamicTFEToolHandler st tfeClients session).1
        = ToolOutcome.errorResult message)
    ∧ (createDynamicTFEToolHandler st tfeClients session).1 ≠ ToolOutcome.runOriginal := by
  rcases h with h | ⟨sessionID, hs, hset, hclient⟩
  · subst h
    exact ⟨⟨_, rfl⟩, by simp [createDynamicTFEToolHandler]⟩
  · subst hs
    refine ⟨⟨"This tool is not available. This tool requires a valid Terraform Cloud/Enterprise token and configuration. Please ensure TFE_TOKEN and TFE_ADDRESS environment variables are properly set.", ?_⟩, ?_⟩ <;>
      simp [createDynamicTFEToolHandler, hset, hclient]

/-- Witness for the C1 theorem on a concrete session with no TFE client. -/
theorem credentialGate_blocksWithoutClient_witness :
    (∃ message, (createDynamicTFEToolHandler initialDynRegistryState
        (fun _ => false) (some "s1")).1 = ToolOutcome.errorResult message)
    ∧ (createDynamicTFEToolHandler initialDynRegistryState
        (fun _ => false) (some "s1")).1 ≠ ToolOutcome.runOriginal :=
  credentialGate_blocksWithoutClient initialDynRegistryState (fun _ => false) (some "s1")
    (Or.inr ⟨"s1", rfl, rfl, rfl⟩)

/-- Invariant of the dynamic tool registry under register/unregister
sequences: the tfeToolsRegistered flag is the disjunction of its initial value
with the occurrence of a registration, and the server tool list matches the
flag. -/
theorem applySessionOps_registered_spec (ops : List SessionOp) (st : DynRegistryState)
    (h : st.serverTools = (if st.tfeToolsRegistered then tfeToolNames else [])) :
    (applySessionOps st ops).tfeToolsRegistered
        = (st.tfeToolsRegistered || ops.any SessionOp.isRegister)
    ∧ (applySessionOps st ops).serverTools
        = (if st.tfeToolsRegistered || ops.any SessionOp.isRegister then tfeToolNames else []) := by
  induction ops generalizing st with
  | nil => simpa [applySessionOps] using h
  | cons op rest ih =>
    cases op with
    | registerTFE sessionID =>
      have hstep : applySessionOps st (SessionOp.registerTFE sessionID :: rest)
          = applySessionOps (RegisterSessionWithTFE sessionID st) rest := rfl
      have hflag : (RegisterSessionWithTFE sessionID st).tfeToolsRegistered = true := by
        unfold RegisterSessionWithTFE registerTFETools
        cases hf : st.tfeToolsRegistered <;> simp [hf]
      have htools : (RegisterSessionWithTFE sessionID st).serverTools = tfeToolNames := by
        unfold RegisterSessionWithTFE registerTFETools
        cases hf : st.tfeToolsRegistered <;> simp [hf] <;> rw [h] <;> simp [hf]
      have := ih (RegisterSessionWithTFE sessionID st) (by rw [htools, hflag]; simp)
      rw [hflag] at this
      simpa [hstep, SessionOp.isRegister] using this
    | unregisterTFE sessionID =>
      have hstep : applySessionOps st (SessionOp.unregisterTFE sessionID :: rest)
          = applySessionOps (UnregisterSessionWithTFE sessionID st) rest := rfl
      have hflag : (UnregisterSessionWithTFE sessionID st).tfeToolsRegistered
          = st.tfeToolsRegistered := rfl
      have htools : (UnregisterSessionWithTFE sessionID st).serverTools
          = st.serverTools := rfl
      have := ih (UnregisterSessionWithTFE sessionID st) (by rw [htools, hflag]; exact h)
      rw [hflag] at this
      simpa [hstep, SessionOp.isRegister] using this

/-- Claim C6: over any sequence of RegisterSessionWithTFE and
UnregisterSessionWithTFE calls starting from the initial registry state, the
tfeToolsRegistered flag is set exactly when some registration occurred (so it
transitions false to true at most once and never back), and the credentialed
tool set is added to the MCP server exactly once, on the first registration,
remaining registered after every unregistration. -/
theorem tfeToolsRegisteredOnce (ops : List SessionOp) :
    (applySessionOps initialDynRegistryState ops).tfeToolsRegistered
        = ops.any SessionOp.isRegister
    ∧ (applySessionOps initialDynRegistryState ops).serverTools
        = (if ops.any SessionOp.isRegister then tfeToolNames else []) := by
  have := applySessionOps_registered_spec ops initialDynRegistryState (by rfl)
  simpa [initialDynRegistryState] using this

/-- Claim C7: for every read of the provider resource template, if the
extracted version slot is empty, equals latest, or does not match the semver
pattern of IsValidProviderVersionFormat, the reader first resolves the latest
provider version and then fetches the overview documentation for that resolved
version; if the version matches the pattern it is used as given without
resolution. -/
theorem providerTemplateVersionResolution (oracle : RegistryOracle)
    (uri ns name version : String)
    (h : ExtractProviderNameAndVersion uri = Except.ok (ns, name, version)) :
    ((version = "" ∨ version = "latest" ∨ IsValidProviderVersionFormat version = false) →
      providerResourceTemplateHelper oracle uri
        = match oracle.getLatestProviderVersion ns name with
          | Except.error e =>
            Except.error ("getting " ++ ns ++ "/" ++ name
              ++ " latest provider version for resource template, " ++ e)
          | Except.ok latest => fetchDocsForVersion oracle ns name latest)
    ∧ (IsValidProviderVersionFormat version = true →
      providerResourceTemplateHelper oracle uri
        = fetchDocsForVersion oracle ns name version) := by
  constructor
  · intro hres
    have hcond : (version == "" || version == "latest"
        || !IsValidProviderVersionFormat version) = true := by
      rcases hres with h1 | h1 | h1 <;> simp [h1]
    simp only [providerResourceTemplateHelper, h, hcond, if_true]
    cases hL : oracle.getLatestProviderVersion ns name with
    | error e => simp
    | ok latest =>
      simp [fetchDocsForVersion]
  · intro hv
    have hne1 : version ≠ "" := by
      intro e; rw [e] at hv; exact absurd hv (by decide)
    have hne2 : version ≠ "latest" := by
      intro e; rw [e] at hv; exact absurd hv (by decide)
    have hcond : (version == "" || version == "latest"
        || !IsValidProviderVersionFormat version) = false := by
      simp [hne1, hne2, hv]
    simp only [providerResourceTemplateHelper, h, hcond, if_false]
    simp [fetchDocsForVersion]

/-- Witness for the C7 theorem at the version slot latest. -/
theorem providerTemplateVersionResolution_witness :
    ExtractProviderNameAndVersion c7Uri = Except.ok ("hashicorp", "aws", "latest")
    ∧ providerResourceTemplateHelper c7Oracle c7Uri
        = match c7Oracle.getLatestProviderVersion "hashicorp" "aws" with
          | Except.error e =>
            Except.error ("getting " ++ "hashicorp" ++ "/" ++ "aws"
              ++ " latest provider version for resource template, " ++ e)
          | Except.ok latest => fetchDocsForVersion c7Oracle "hashicorp" "aws" latest :=
  ⟨rfl, (providerTemplateVersionResolution c7Oracle c7Uri "hashicorp" "aws" "latest" rfl).1
      (Or.inr (Or.inl rfl))⟩

/-- Claim C8 (amended): every successful read of the provider resource
template returns a single TextResourceContents chunk whose MIME type is
text/markdown, whose URI is the template's URI pattern (not the sub-URI of any
fetched document), and whose text is the concatenation of the fetched overview
documents. -/
theorem providerTemplateRead_singleChunk (oracle : RegistryOracle)
    (templateURI requestURI docs : String)
    (h : providerResourceTemplateHelper oracle requestURI = Except.ok docs) :
    providerResourceTemplateRead oracle templateURI requestURI
      = Except.ok [{ mimeType := "text/markdown", uri := templateURI, text := docs }] := by
  simp [providerResourceTemplateRead, h]

/-- Witness for the C8 theorem on a concrete two-document read. -/
theorem providerTemplateRead_singleChunk_witness :
    providerResourceTemplateRead c8Oracle c8TemplateURI c8RequestURI
      = Except.ok [{ mimeType := "text/markdown", uri := c8TemplateURI, text := "AB" }] :=
  providerTemplateRead_singleChunk c8Oracle c8TemplateURI c8RequestURI "AB" rfl

/-- Claim C8 counterexample: a successful read whose overview listing has two
physical source documents still returns exactly one chunk (not one per
document), and that chunk's URI is the template pattern rather than the
sub-URI of either document. -/
theorem providerTemplateRead_chunkCount_counterexample :
    c8Oracle.overviewDocPages "VID" = Except.ok ["d1", "d2"]
    ∧ providerResourceTemplateRead c8Oracle c8TemplateURI c8RequestURI
        = Except.ok [{ mimeType := "text/markdown", uri := c8TemplateURI, text := "AB" }]
    ∧ c8TemplateURI ≠ c8RequestURI
    ∧ ¬ (∃ chunks, providerResourceTemplateRead c8Oracle c8TemplateURI c8RequestURI
            = Except.ok chunks ∧ chunks.length = 2) := by
  refine ⟨rfl, rfl, by decide, ?_⟩
  rintro ⟨chunks, hc, hlen⟩
  have heval : providerResourceTemplateRead c8Oracle c8TemplateURI c8RequestURI
      = Except.ok [{ mimeType := "text/markdown", uri := c8TemplateURI, text := "AB" }] := rfl
  rw [heval] at hc
  injection hc with hc
  rw [← hc] at hlen
  simp at hlen

/-- Claim C10: for every upstream registry response whose status is not 200,
SendRegistryCall returns the fixed error message error: 404 Not Found
regardless of the actual status code, and returns no body; the body is
returned if and only if the status is 200. -/
theorem sendRegistryCall_non200 (doRequest : String → String → Except String RegistryResponse)
    (method uri : String) (callOptions : List String) (resp : RegistryResponse)
    (h : doRequest method (buildRegistryURL callOptions uri) = Except.ok resp) :
    (resp.statusCode ≠ 200 →
      SendRegistryCall doRequest method uri callOptions
        = Except.error "error: 404 Not Found")
    ∧ ∀ body, (SendRegistryCall doRequest method uri callOptions = Except.ok body
        ↔ (resp.statusCode = 200 ∧ body = resp.body)) := by
  constructor
  · intro hne
    have hne2 : (resp.statusCode != 200) = true := bne_iff_ne.mpr hne
    simp [SendRegistryCall, h, hne2]
  · intro body
    constructor
    · intro hok
      by_cases hs : resp.statusCode = 200
      · have hs2 : (resp.statusCode != 200) = false := by simp [hs]
        simp [SendRegistryCall, h, hs2] at hok
        exact ⟨hs, hok.symm⟩
      · have hs2 : (resp.statusCode != 200) = true := bne_iff_ne.mpr hs
        simp [SendRegistryCall, h, hs2] at hok
    · rintro ⟨hs, hb⟩
      have hs2 : (resp.statusCode != 200) = false := by simp [hs]
      simp [SendRegistryCall, h, hs2, hb]

/-- Witness for the C10 theorem: a 500 upstream response is reported as 404
Not Found. -/
theorem sendRegistryCall_non200_witness :
    SendRegistryCall c10Transport "GET" "providers/hashicorp/aws" []
      = Except.error "error: 404 Not Found" :=
  (sendRegistryCall_non200 c10Transport "GET" "providers/hashicorp/aws" []
      { statusCode := 500, body := "internal server error" } rfl).1 (by decide)
